import Mathlib

/-!
Verification of the waypoint-generation engine and mission exporter of the
WaypointMapping repository (ASP.NET server, `WaypointMapping.Server` namespace).

The C# code is shallowly embedded: C# `double` values are modelled as exact
rationals (`ℚ`), `int` as `ℤ`/`ℕ`, C# strings as Lean `String`, thrown
`ArgumentException`s as `Except.error`, and null/absent values as `Option`.
The trigonometric primitives used by the geodesic projection
(`Math.Sin`, `Math.Cos`, `Math.Asin`, `Math.Atan2`) are numeric black boxes:
the embedding is parametrised by a `TrigOps` record supplying them, so every
structural property (branching, counts, indices, headings, which centre feeds
the projection) is proved for all interpretations of the trigonometry.
-/

namespace WaypointMapping

/-- Exact rational value of the C# double constant `Math.PI`. -/
def mathPi : ℚ := 884279719003555 / 281474976710656

/-- Truncated remainder: C# `%` on doubles (truncated remainder).  Every use site in the embedded
code has a nonnegative dividend and the positive divisor 360, where truncated
remainder and floor remainder agree, so it is defined via the floor. -/
def fmod (x y : ℚ) : ℚ := x - y * (⌊x / y⌋ : ℤ)

/-- Models C# `string.ToLower()` for the ASCII strings compared in this
code, over the character list (kernel-reducible, unlike `String.toLower`). -/
def toLowerAscii (s : String) : String := String.mk (s.data.map Char.toLower)

/-- Models C# `string.IsNullOrWhiteSpace` (null identified with ""). -/
def isNullOrWhiteSpace (s : String) : Bool := s.data.all Char.isWhitespace

/-- The four trigonometric primitives of `System.Math` used by the circle
handler, as an abstract interpretation. -/
structure TrigOps where
  sin : ℚ → ℚ
  cos : ℚ → ℚ
  asin : ℚ → ℚ
  atan2 : ℚ → ℚ → ℚ

/-- Embeds `WaypointMapping.Server.Models.Coordinate` (Lat, Lng, optional Radius). -/
structure Coordinate where
  lat : ℚ
  lng : ℚ
  radius : ℚ := 0
deriving Repr, DecidableEq

/-- Embeds `WaypointMapping.Server.Models.ShapeData`. -/
structure ShapeData where
  id : String := "1"
  type : String := ""
  coordinates : List Coordinate := []
  radius : ℚ := 0
deriving Repr, DecidableEq

-- `WaypointMapping.Server.Models.ShapeTypes` string constants.
namespace ShapeTypes

def rectangle : String := "rectangle"

def polygon : String := "polygon"

def circle : String := "circle"

def polyline : String := "polyline"

end ShapeTypes

/-- Embeds `WaypointMapping.Server.Models.WaypointParameters`, as constructed by
`WaypointsController.GenerateWaypoints`. -/
structure WaypointParameters where
  altitude : ℚ := 0
  speed : ℚ := 0
  angle : ℚ := 0
  lineSpacing : ℚ := 0
  startingIndex : ℤ := 0
  action : String := "takePhoto"
  photoInterval : ℚ := 0
  useEndpointsOnly : Bool := false
  isNorthSouth : Bool := false
  unitType : ℤ := 0
  focalLength : ℚ := 0
  sensorWidth : ℚ := 0
  sensorHeight : ℚ := 0
  overlap : ℚ := 0
  manualSpeedSet : Bool := false
deriving Repr, DecidableEq

/-- Embeds `WaypointMapping.Server.Models.Waypoint`
(constructor `Waypoint(id, lat, lng, altitude, speed, action)` plus the
settable `Heading` property). -/
structure Waypoint where
  index : ℤ
  lat : ℚ
  lng : ℚ
  altitude : ℚ
  speed : ℚ
  action : String
  heading : ℚ := 0
deriving Repr, DecidableEq

/-- The spherical law-of-cosines projection inlined in
`CircleShapeService.GenerateWaypoints` (lines 89-113): project from
`(centerLat, centerLng)` along bearing `headingDeg` (degrees) for
`radius` metres on a sphere of radius 6378137 m; returns `(lat, lng)`
in degrees. -/
def sphericalProject (T : TrigOps) (centerLat centerLng headingDeg radius : ℚ) :
    ℚ × ℚ :=
  let headingRadians := headingDeg * (mathPi / 180)
  let angularDistance := radius / 6378137
  let startLatRad := centerLat * (mathPi / 180)
  let startLonRad := centerLng * (mathPi / 180)
  let endLatRad := T.asin
    (T.sin startLatRad * T.cos angularDistance
      + T.cos startLatRad * T.sin angularDistance * T.cos headingRadians)
  let endLonRad := startLonRad
    + T.atan2
        (T.sin headingRadians * T.sin angularDistance * T.cos startLatRad)
        (T.cos angularDistance - T.sin startLatRad * T.sin endLatRad)
  (endLatRad * (180 / mathPi), endLonRad * (180 / mathPi))

namespace CircleShapeService

/-- Embeds `CircleShapeService.CanHandleShapeType`. -/
def canHandleShapeType (shapeType : String) : Bool :=
  toLowerAscii shapeType == ShapeTypes.circle

/-- The London fallback centre substituted by `CircleShapeService` for a
near-(0,0) centre (lines 48-58): `Lat = 51.5074`, `Lng = -0.1278`, the
radius field copied from the supplied coordinate. -/
def londonFallback (center : Coordinate) : Coordinate :=
  { lat := 515074 / 10000, lng := -1278 / 10000, radius := center.radius }

/-- The fallback test of lines 49-58: a centre with `|Lat| < 1e-9` and
`|Lng| < 1e-9` is replaced by the London coordinates. -/
def effectiveCenter (center : Coordinate) : Coordinate :=
  if |center.lat| < 1 / 1000000000 ∧ |center.lng| < 1 / 1000000000 then
    londonFallback center
  else center

/-- Loop body of `CircleShapeService.GenerateWaypoints` (lines 77-129) for
loop variable `i`, producing the `i`-th waypoint of a circle with
`numberOfWaypoints = n` sample points. -/
def circleWaypoint (T : TrigOps) (center : Coordinate) (radiusMeters : ℚ)
    (p : WaypointParameters) (n : ℕ) (i : ℕ) : Waypoint :=
  let angleStep : ℚ := 360 / (n : ℚ)
  let angle : ℚ := (i : ℚ) * angleStep
  let headingFromCenter := fmod (angle + 90) 360
  let pos := sphericalProject T center.lat center.lng headingFromCenter radiusMeters
  let headingToCenter := fmod (headingFromCenter + 180) 360
  { index := p.startingIndex + i
    lat := pos.1
    lng := pos.2
    altitude := p.altitude
    speed := p.speed
    action := p.action
    heading := headingToCenter }

/-- Embeds `CircleShapeService.GenerateWaypoints` (lines 33-158).  The C# method
returns an empty list when the shape or its coordinate list is null/empty and
throws an `ArgumentException` (here `Except.error`) for a non-positive
radius; the `(int)` cast of the positive count is truncation, which under
`max 24` coincides with the floor. -/
def generateWaypoints (T : TrigOps) (shape : ShapeData)
    (p : WaypointParameters) : Except String (List Waypoint) :=
  match shape.coordinates with
  | [] => .ok []
  | center0 :: _ =>
    let radiusMeters := shape.radius
    if radiusMeters ≤ 0 then
      .error "Circle radius must be greater than zero."
    else
      let center := effectiveCenter center0
      let circumference := 2 * mathPi * radiusMeters
      let distancePerWaypoint := p.speed * p.photoInterval
      let numberOfWaypoints : ℕ :=
        (max 24 ⌊circumference / distancePerWaypoint⌋).toNat
      .ok ((List.range numberOfWaypoints).map
        (circleWaypoint T center radiusMeters p numberOfWaypoints))

end CircleShapeService

namespace ShapeDataFactory

/-- Embeds `ShapeDataFactory.CreateCircleShape` (part_014 lines 55-72): takes the
first bound as the centre and uses its `Radius` when positive, otherwise the
hard-coded 100 metres.  The non-empty guard of line 57 is total here because
its caller already rejected an empty list. -/
def createCircleShape (bounds : List Coordinate) (id : String) :
    Except String ShapeData :=
  match bounds with
  | [] => .error "Circle bounds must contain at least one coordinate"
  | center :: _ =>
    let radius : ℚ := if center.radius > 0 then center.radius else 100
    .ok { id := id
          type := ShapeTypes.circle
          coordinates := [center]
          radius := radius }

/-- Embeds `ShapeDataFactory.CreateFromBoundsType` (part_014 lines 16-53). -/
def createFromBoundsType (boundsType : String) (bounds : List Coordinate)
    (id : String := "1") : Except String ShapeData :=
  if bounds.isEmpty then
    .error "Bounds cannot be null or empty"
  else
    match toLowerAscii boundsType with
    | "rectangle" =>
      .ok { id := id, type := ShapeTypes.rectangle, coordinates := bounds }
    | "polygon" =>
      .ok { id := id, type := ShapeTypes.polygon, coordinates := bounds }
    | "circle" => createCircleShape bounds id
    | "polyline" =>
      .ok { id := id, type := ShapeTypes.polyline, coordinates := bounds }
    | _ => .error ("Unknown bounds type: " ++ boundsType)

end ShapeDataFactory

namespace WaypointService

/-- Modelled from the spec: the repository registers a `WaypointService` as
`IWaypointService` (Program.cs line 57) but its implementation file is not
under src/; only the interface use in `WaypointsController`, the DI
registration and test mocks are.  Section 4.3 of the spec: the orchestrator
dispatches each shape to the first handler whose `CanHandle` returns true and
fails with `UnsupportedShapeError` when none match.  Of the four registered
handlers only `CircleShapeService` is present under src/, so dispatch is
modelled for it and errors otherwise. -/
def dispatch (T : TrigOps) (shape : ShapeData) (p : WaypointParameters) :
    Except String (List Waypoint) :=
  if CircleShapeService.canHandleShapeType shape.type then
    CircleShapeService.generateWaypoints T shape p
  else
    .error "UnsupportedShapeError"

/-- Modelled from the spec (§4.3): the orchestrator renumbers `Index`
sequentially starting at `params.StartingIndex`. -/
def renumber (startingIndex : ℤ) (ws : List Waypoint) : List Waypoint :=
  (List.range ws.length).zipWith
    (fun k w => { w with index := startingIndex + k }) ws

/-- Modelled from the spec: `IWaypointService.GenerateWaypointsAsync`, whose
implementation is not under src/.  Spec §4.3: dispatch each shape, propagate
handler errors without emitting any waypoints, concatenate per-shape results in
input order and renumber `Index` sequentially starting at
`params.StartingIndex`. -/
def generateWaypoints (T : TrigOps) (shapes : List ShapeData)
    (p : WaypointParameters) : Except String (List Waypoint) :=
  match shapes.mapM (fun s => dispatch T s p) with
  | .error e => .error e
  | .ok results => .ok (renumber p.startingIndex results.flatten)

end WaypointService

/-- Embeds `System.Xml.Linq` element trees as built by `KMZService`: an element with
a namespace, a local name and child content, or a text node.  Namespace
declaration attributes do not affect any verified property and are not
modelled; `null` content (skipped by `XElement`) is modelled by appending
`Option.toList`. -/
inductive XNode where
  | elem (ns : String) (name : String) (children : List XNode)
  | text (s : String)

/-- Child list of a node (empty for text). -/
def XNode.childList : XNode → List XNode
  | .elem _ _ cs => cs
  | .text _ => []

/-- Whether a node is an element with the given local name. -/
def XNode.isNamed (name : String) : XNode → Bool
  | .elem _ n _ => n == name
  | .text _ => false

/-- Direct children that are elements with the given local name. -/
def XNode.childrenNamed (name : String) (x : XNode) : List XNode :=
  x.childList.filter (XNode.isNamed name)

/-- First direct text child of a node. -/
def XNode.firstText (x : XNode) : Option String :=
  x.childList.findSome? fun c =>
    match c with
    | .text s => some s
    | .elem _ _ _ => none

mutual

/-- Number of elements with the given local name in the whole tree. -/
def XNode.countNamed (name : String) : XNode → ℕ
  | .text _ => 0
  | .elem _ n cs => (if n == name then 1 else 0) + XNode.countNamedList name cs

/-- Sum of `countNamed` over a list of nodes. -/
def XNode.countNamedList (name : String) : List XNode → ℕ
  | [] => 0
  | c :: cs => XNode.countNamed name c + XNode.countNamedList name cs

end

/-- Embeds `WaypointMapping.Server.Models.DroneInfo`. -/
structure DroneInfo where
  droneEnumValue : ℤ
  droneSubEnumValue : ℤ
deriving Repr, DecidableEq

-- `WaypointMapping.Server.Models.DroneDefaults` constants.
namespace DroneDefaults

def droneEnumValue : ℤ := 68

def droneSubEnumValue : ℤ := 0

def globalTransitionalSpeed : ℚ := 5 / 2

end DroneDefaults

/-- Embeds `WaypointMapping.Server.Models.WaypointGen` (the export waypoint model);
the `object?`/nullable members are modelled as `Option` fields. -/
structure WaypointGen where
  index : ℤ := 0
  latitude : ℚ := 0
  longitude : ℚ := 0
  executeHeight : ℚ := 0
  waypointSpeed : ℚ := 0
  waypointHeadingMode : Option String := none
  waypointHeadingPathMode : Option String := none
  waypointTurnMode : Option String := none
  waypointTurnDampingDist : ℚ := 0
  action : String := "takePhoto"
  waypointHeadingAngle : Option String := none
  waypointPoiPoint : Option String := none
  waypointHeadingAngleEnable : Option ℤ := none
  useStraightLine : Option String := none
deriving Repr, DecidableEq

/-- Embeds `WaypointMapping.Server.Models.FlyToWaylineRequest`, the `KMZService`
input; a null waypoint list is identified with the empty list. -/
structure FlyToWaylineRequest where
  flyToWaylineMode : Option String := none
  finishAction : Option String := none
  exitOnRCLost : Option String := none
  executeRCLostAction : Option String := none
  globalTransitionalSpeed : ℚ := 0
  droneInfo : Option DroneInfo := none
  waypoints : List WaypointGen := []
  interval : ℚ := 0
deriving Repr, DecidableEq

/-- Fraction digits (most significant first, exactly `decimals` of them) of
`|q|` rounded to `decimals` decimal places. -/
def fracDigits (decimals : ℕ) (q : ℚ) : List ℕ :=
  let scaled : ℕ := (round (|q| * (10 : ℚ) ^ decimals)).toNat
  (List.range decimals).map fun k => scaled / 10 ^ (decimals - 1 - k) % 10

/-- The fractional part of fixed-point formatting, as a digit string of
length `decimals`. -/
def fracString (decimals : ℕ) (q : ℚ) : String :=
  String.mk ((fracDigits decimals q).map Nat.digitChar)

/-- Sign and integer part of fixed-point formatting. -/
def formatFixedIntPart (decimals : ℕ) (q : ℚ) : String :=
  (if q < 0 then "-" else "")
    ++ toString ((round (|q| * (10 : ℚ) ^ decimals)).toNat / 10 ^ decimals)

/-- C# `value.ToString("Fn", CultureInfo.InvariantCulture)` fixed-point
formatting over the exact rational value: sign, integer part, a decimal
point, then exactly `decimals` fraction digits. -/
def formatFixed (decimals : ℕ) (q : ℚ) : String :=
  formatFixedIntPart decimals q ++ "." ++ fracString decimals q

/-- C# `value.ToString(CultureInfo.InvariantCulture)` for doubles
(shortest round-trip decimal).  No verified property depends on its digit
sequence, so the exact rational is printed instead. -/
def invariantString (q : ℚ) : String := toString q

namespace KMZService

def kmlNs : String := "http://www.opengis.net/kml/2.2"

def wpmlNs : String := "http://www.dji.com/wpmz/1.0.2"

/-- Content of an `XElement` fed a nullable string. -/
def optText (o : Option String) : List XNode :=
  (o.map XNode.text).toList

/-- Embeds `KMZService.GetDefaultWaypoints` (lines 55-85). -/
def getDefaultWaypoints : List WaypointGen :=
  [ { latitude := 604040751527782 / 10000000000000
      longitude := 26254953488815023 / 1000000000000000
      executeHeight := 40
      waypointSpeed := 5 / 2
      index := 0 }
  , { latitude := 604040751527782 / 10000000000000
      longitude := 2625485348881502 / 100000000000000
      executeHeight := 40
      waypointSpeed := 5 / 2
      index := 1 }
  , { latitude := 604040751527782 / 10000000000000
      longitude := 2625275348881502 / 100000000000000
      executeHeight := 40
      waypointSpeed := 5 / 2
      index := 2 } ]

/-- Embeds `KMZService.SetDefaultValues` (lines 28-53): an empty (or null) waypoint
list is replaced by the three default waypoints, and null mission-config
fields get their defaults. -/
def setDefaultValues (request : FlyToWaylineRequest) : FlyToWaylineRequest :=
  { request with
    waypoints :=
      if request.waypoints.isEmpty then getDefaultWaypoints
      else request.waypoints
    flyToWaylineMode := some (request.flyToWaylineMode.getD "safely")
    finishAction := some (request.finishAction.getD "noAction")
    exitOnRCLost := some (request.exitOnRCLost.getD "executeLostAction")
    executeRCLostAction := some (request.executeRCLostAction.getD "hover")
    globalTransitionalSpeed :=
      if request.globalTransitionalSpeed ≤ 0 then
        DroneDefaults.globalTransitionalSpeed
      else request.globalTransitionalSpeed
    droneInfo :=
      some (request.droneInfo.getD
        { droneEnumValue := DroneDefaults.droneEnumValue
          droneSubEnumValue := DroneDefaults.droneSubEnumValue }) }

/-- Embeds `KMZService.GetActionActuatorFunc` (lines 364-374). -/
def getActionActuatorFunc (action : String) : String :=
  match toLowerAscii action with
  | "takephoto" => "takePhoto"
  | "startrecord" => "startRecord"
  | "stoprecord" => "stopRecord"
  | "noaction" => "none"
  | _ => "none"

/-- Embeds `KMZService.CreateActionElement` (lines 296-332). -/
def createActionElement (actuatorFunc : String) : XNode :=
  match actuatorFunc with
  | "takePhoto" =>
    .elem wpmlNs "action"
      [ .elem wpmlNs "actionId" [.text "6"]
      , .elem wpmlNs "actionActuatorFunc" [.text "takePhoto"]
      , .elem wpmlNs "actionActuatorFuncParam"
          [.elem wpmlNs "payloadPositionIndex" [.text "0"]] ]
  | "startRecord" =>
    .elem wpmlNs "action"
      [ .elem wpmlNs "actionId" [.text "6"]
      , .elem wpmlNs "actionActuatorFunc" [.text "startRecord"]
      , .elem wpmlNs "actionActuatorFuncParam"
          [.elem wpmlNs "payloadPositionIndex" [.text "0"]] ]
  | "stopRecord" =>
    .elem wpmlNs "action"
      [ .elem wpmlNs "actionId" [.text "6"]
      , .elem wpmlNs "actionActuatorFunc" [.text "stopRecord"]
      , .elem wpmlNs "actionActuatorFuncParam"
          [.elem wpmlNs "payloadPositionIndex" [.text "0"]] ]
  | _ => .elem wpmlNs "action" []

/-- Embeds `KMZService.CreateActionGroup` (lines 275-294): no action group for a
blank or `"none"` actuator function. -/
def createActionGroup (actuatorFunc : String) (waypointIndex : ℤ) :
    Option XNode :=
  if isNullOrWhiteSpace actuatorFunc || actuatorFunc == "none" then
    none
  else
    some (.elem wpmlNs "actionGroup"
      [ .elem wpmlNs "actionGroupId" [.text (toString waypointIndex)]
      , .elem wpmlNs "actionGroupStartIndex" [.text (toString waypointIndex)]
      , .elem wpmlNs "actionGroupEndIndex" [.text (toString waypointIndex)]
      , .elem wpmlNs "actionGroupMode" [.text "parallel"]
      , .elem wpmlNs "actionTrigger"
          [.elem wpmlNs "actionTriggerType" [.text "reachPoint"]]
      , createActionElement actuatorFunc ])

/-- Embeds `KMZService.CreatePlacemark` (lines 212-273). -/
def createPlacemark (waypoint : WaypointGen) : XNode :=
  let actuatorFunc := getActionActuatorFunc waypoint.action
  let actionGroup := createActionGroup actuatorFunc waypoint.index
  .elem kmlNs "Placemark"
    ([ .elem kmlNs "Point"
        [ .elem kmlNs "coordinates"
            [.text (formatFixed 14 waypoint.longitude ++ ","
              ++ formatFixed 14 waypoint.latitude)] ]
    , .elem wpmlNs "index" [.text (toString waypoint.index)]
    , .elem wpmlNs "executeHeight"
        [.text (invariantString waypoint.executeHeight)]
    , .elem wpmlNs "waypointSpeed"
        [.text (invariantString waypoint.waypointSpeed)]
    , .elem wpmlNs "waypointHeadingParam"
        [ .elem wpmlNs "waypointHeadingMode"
            [.text (waypoint.waypointHeadingMode.getD "smooth")]
        , .elem wpmlNs "waypointHeadingAngle"
            [.text (waypoint.waypointHeadingAngle.getD "0")]
        , .elem wpmlNs "waypointPoiPoint"
            [.text (waypoint.waypointPoiPoint.getD "0.000000,0.000000,0.000000")]
        , .elem wpmlNs "waypointHeadingAngleEnable"
            [.text (toString (waypoint.waypointHeadingAngleEnable.getD 0))]
        , .elem wpmlNs "waypointHeadingPathMode"
            [.text (waypoint.waypointHeadingPathMode.getD "followBadArc")] ]
    , .elem wpmlNs "waypointTurnParam"
        [ .elem wpmlNs "waypointTurnMode"
            [.text (waypoint.waypointTurnMode.getD
              "toPointAndPassWithContinuityCurvature")]
        , .elem wpmlNs "waypointTurnDampingDist"
            [.text (invariantString waypoint.waypointTurnDampingDist)] ]
    , .elem wpmlNs "useStraightLine"
        [.text (waypoint.useStraightLine.getD "0")] ]
    ++ actionGroup.toList)

/-- The `wpml:missionConfig` block shared by both documents
(lines 95-128 and 166-189). -/
def missionConfig (request : FlyToWaylineRequest) : XNode :=
  .elem wpmlNs "missionConfig"
    [ .elem wpmlNs "flyToWaylineMode" (optText request.flyToWaylineMode)
    , .elem wpmlNs "finishAction" (optText request.finishAction)
    , .elem wpmlNs "exitOnRCLost" (optText request.exitOnRCLost)
    , .elem wpmlNs "executeRCLostAction" (optText request.executeRCLostAction)
    , .elem wpmlNs "globalTransitionalSpeed"
        [.text (invariantString request.globalTransitionalSpeed)]
    , .elem wpmlNs "droneInfo"
        [ .elem wpmlNs "droneEnumValue"
            [.text ((request.droneInfo.map
              (fun d => toString d.droneEnumValue)).getD "68")]
        , .elem wpmlNs "droneSubEnumValue"
            [.text ((request.droneInfo.map
              (fun d => toString d.droneSubEnumValue)).getD "0")] ] ]

/-- Embeds `KMZService.GenerateKmlAsync` (lines 87-156): the `template.kml`
document tree. -/
def generateKml (request : FlyToWaylineRequest) : XNode :=
  .elem kmlNs "kml"
    [ .elem kmlNs "Document"
        [ missionConfig request
        , .elem wpmlNs "actionGroup"
            [ .elem wpmlNs "actionGroupId" [.text "1"]
            , .elem wpmlNs "actionGroupMode" [.text "parallel"]
            , .elem wpmlNs "actionTrigger"
                [ .elem wpmlNs "actionTriggerType" [.text "timeInterval"]
                , .elem wpmlNs "timeInterval"
                    [.text (invariantString request.interval)] ]
            , .elem wpmlNs "action"
                [ .elem wpmlNs "actionId" [.text "1"]
                , .elem wpmlNs "actionActuatorFunc" [.text "takePhoto"] ] ] ] ]

/-- Embeds `KMZService.GenerateWpmlAsync` (lines 158-210): the `waylines.wpml`
document tree, one `Placemark` per waypoint of the request. -/
def generateWpml (request : FlyToWaylineRequest) : XNode :=
  .elem kmlNs "kml"
    [ .elem kmlNs "Document"
        [ missionConfig request
        , .elem kmlNs "Folder"
            ([ .elem wpmlNs "templateId" [.text "1"]
            , .elem wpmlNs "executeHeightMode" [.text "relativeToStartPoint"]
            , .elem wpmlNs "waylineId" [.text "0"]
            , .elem wpmlNs "distance" [.text "0"]
            , .elem wpmlNs "duration" [.text "0"]
            , .elem wpmlNs "autoFlightSpeed"
                [.text (invariantString request.globalTransitionalSpeed)] ]
            ++ request.waypoints.map createPlacemark) ] ]

/-- Embeds `KMZService.CreateKmzAsync` (lines 334-359): the KMZ zip archive as its
ordered list of named entries (entry content kept as the document tree; XML
and zip byte serialization are not modelled). -/
def createKmz (kmlContent wpmlContent : XNode) : List (String × XNode) :=
  [("template.kml", kmlContent), ("waylines.wpml", wpmlContent)]

/-- Embeds `KMZService.GenerateKmzAsync` (lines 14-26): apply the defaults, build
both documents, package them. -/
def generateKmz (request : FlyToWaylineRequest) : List (String × XNode) :=
  let request := setDefaultValues request
  createKmz (generateKml request) (generateWpml request)

end KMZService

/-! ### Definitions used only in theorem statements and witnesses -/

/-- The interpretation sending every trigonometric primitive to zero;
used to evaluate structural properties on concrete inputs. -/
def trigZero : TrigOps where
  sin := fun _ => 0
  cos := fun _ => 0
  asin := fun _ => 0
  atan2 := fun _ _ => 0

/-- An interpretation whose projection output distinguishes different
centre latitudes, used to witness which centre feeds the projection. -/
def trigId : TrigOps where
  sin := fun x => x
  cos := fun x => x
  asin := fun x => x
  atan2 := fun y _ => y

/-- A 100 m circle around an ordinary (non-zero) centre. -/
def sampleCircle : ShapeData :=
  { id := "1"
    type := "circle"
    coordinates := [{ lat := 51, lng := 7, radius := 100 }]
    radius := 100 }

/-- A 100 m circle whose centre is exactly (0,0). -/
def zeroCenterCircle : ShapeData :=
  { id := "1"
    type := "circle"
    coordinates := [{ lat := 0, lng := 0, radius := 100 }]
    radius := 100 }

/-- A circle shape whose coordinate list is empty. -/
def emptyCoordCircle : ShapeData :=
  { id := "1", type := "circle", coordinates := [], radius := 100 }

/-- Sample flight parameters: 5 m/s, 2 s photo interval, starting index 0. -/
def sampleParams : WaypointParameters :=
  { altitude := 40
    speed := 5
    photoInterval := 2
    startingIndex := 0
    action := "takePhoto" }

/-- The tangential bearing of the spec for sample `i` of `n`:
`(angle + 90) mod 360` with `angle = i * 360 / n`. -/
def tangentialBearing (n i : ℕ) : ℚ :=
  fmod ((i : ℚ) * (360 / (n : ℚ)) + 90) 360

/-- The actuator function names the spec requires in the actionGroup blocks
of a waypoint with the given `Action` (none at all for `noAction`). -/
def specActuatorOf : String → List String
  | "takePhoto" => ["takePhoto"]
  | "startRecord" => ["startRecord"]
  | "stopRecord" => ["stopRecord"]
  | _ => []

/-- All `actionActuatorFunc` texts of the actionGroup blocks of a
placemark. -/
def placemarkActionGroupFuncs (pm : XNode) : List String :=
  (((pm.childrenNamed "actionGroup").map fun g =>
    ((g.childrenNamed "action").map fun a =>
      (a.childrenNamed "actionActuatorFunc").filterMap
        XNode.firstText).flatten)).flatten

/-- The text of the `Point/coordinates` element of a placemark. -/
def placemarkCoordinatesText (pm : XNode) : Option String :=
  (pm.childrenNamed "Point").head? >>= fun p =>
    (p.childrenNamed "coordinates").head? >>= XNode.firstText

/-- The orchestrator output for one sample circle under the zero trig
interpretation. -/
def orchestratedSample : List Waypoint :=
  (WaypointService.generateWaypoints trigZero [sampleCircle]
    sampleParams).toOption.getD []

/-- An export request with an empty waypoint list. -/
def emptyRequest : FlyToWaylineRequest := {}

/-- An export request with three waypoints. -/
def threeWaypointRequest : FlyToWaylineRequest :=
  { waypoints :=
      [ { index := 0, latitude := 60, longitude := 24, executeHeight := 40
          waypointSpeed := 5 / 2 }
      , { index := 1, latitude := 61, longitude := 25, executeHeight := 40
          waypointSpeed := 5 / 2 }
      , { index := 2, latitude := 62, longitude := 26, executeHeight := 40
          waypointSpeed := 5 / 2, action := "noAction" } ] }

/-! ## Helper lemmas -/

theorem circle_generateWaypoints_ok (T : TrigOps) (shape : ShapeData)
    (p : WaypointParameters) (center : Coordinate) (tl : List Coordinate)
    (h : shape.coordinates = center :: tl) (hr : 0 < shape.radius) :
    CircleShapeService.generateWaypoints T shape p =
      .ok ((List.range
          ((max 24 ⌊2 * mathPi * shape.radius / (p.speed * p.photoInterval)⌋).toNat)).map
        (CircleShapeService.circleWaypoint T
          (CircleShapeService.effectiveCenter center) shape.radius p
          ((max 24 ⌊2 * mathPi * shape.radius / (p.speed * p.photoInterval)⌋).toNat))) := by
  unfold CircleShapeService.generateWaypoints
  rw [h]
  simp [not_le.mpr hr]

theorem circleWaypoint_latlng (T : TrigOps) (c : Coordinate) (r : ℚ)
    (p : WaypointParameters) (n i : ℕ) :
    ((CircleShapeService.circleWaypoint T c r p n i).lat,
      (CircleShapeService.circleWaypoint T c r p n i).lng)
      = sphericalProject T c.lat c.lng
          (fmod ((i : ℚ) * (360 / (n : ℚ)) + 90) 360) r := rfl

theorem renumber_length (s : ℤ) (ws : List Waypoint) :
    (WaypointService.renumber s ws).length = ws.length := by
  simp [WaypointService.renumber]

theorem renumber_map_index (s : ℤ) (ws : List Waypoint) :
    (WaypointService.renumber s ws).map Waypoint.index
      = (List.range ws.length).map (fun k : ℕ => s + (k : ℤ)) := by
  apply List.ext_getElem
  · simp [renumber_length]
  · intro i h1 h2
    simp only [List.getElem_map, List.getElem_zipWith, List.getElem_range,
      WaypointService.renumber]

theorem countNamed_text (name s : String) :
    XNode.countNamed name (XNode.text s) = 0 := by
  simp [XNode.countNamed]

theorem countNamed_elem (name ns n : String) (cs : List XNode) :
    XNode.countNamed name (XNode.elem ns n cs)
      = (if n == name then 1 else 0) + XNode.countNamedList name cs := by
  simp [XNode.countNamed]

theorem countNamedList_nil (name : String) :
    XNode.countNamedList name [] = 0 := by
  simp [XNode.countNamedList]

theorem countNamedList_cons (name : String) (c : XNode) (cs : List XNode) :
    XNode.countNamedList name (c :: cs)
      = XNode.countNamed name c + XNode.countNamedList name cs := by
  simp [XNode.countNamedList]

theorem countNamedList_append (n : String) (a b : List XNode) :
    XNode.countNamedList n (a ++ b)
      = XNode.countNamedList n a + XNode.countNamedList n b := by
  induction a with
  | nil => simp [countNamedList_nil]
  | cons c cs ih => simp [countNamedList_cons, ih, Nat.add_assoc]

theorem countPlacemark_actionElement (f : String) :
    XNode.countNamed "Placemark" (KMZService.createActionElement f) = 0 := by
  unfold KMZService.createActionElement
  split <;> simp [countNamed_elem, countNamed_text, countNamedList_cons,
    countNamedList_nil]

theorem countPlacemark_actionGroup (f : String) (idx : ℤ) :
    XNode.countNamedList "Placemark"
      (KMZService.createActionGroup f idx).toList = 0 := by
  unfold KMZService.createActionGroup
  split
  · simp [countNamedList_nil]
  · simp [countNamed_elem, countNamed_text, countNamedList_cons,
      countNamedList_nil, countPlacemark_actionElement]

theorem countPlacemark_createPlacemark (wp : WaypointGen) :
    XNode.countNamed "Placemark" (KMZService.createPlacemark wp) = 1 := by
  unfold KMZService.createPlacemark
  simp [countNamed_elem, countNamed_text, countNamedList_cons,
    countNamedList_nil, countNamedList_append, countPlacemark_actionGroup]

theorem countPlacemark_map (l : List WaypointGen) :
    XNode.countNamedList "Placemark" (l.map KMZService.createPlacemark)
      = l.length := by
  induction l with
  | nil => simp [countNamedList_nil]
  | cons wp l ih =>
    simp [countNamedList_cons, countPlacemark_createPlacemark, ih]
    omega

theorem countPlacemark_optText (o : Option String) :
    XNode.countNamedList "Placemark" (KMZService.optText o) = 0 := by
  cases o <;> simp [KMZService.optText, countNamedList_nil, countNamedList_cons,
    countNamed_text]

theorem countPlacemark_missionConfig (r : FlyToWaylineRequest) :
    XNode.countNamed "Placemark" (KMZService.missionConfig r) = 0 := by
  simp [KMZService.missionConfig, countNamed_elem, countNamed_text,
    countNamedList_cons, countNamedList_nil, countNamedList_append,
    countPlacemark_optText]

theorem countPlacemark_generateKml (r : FlyToWaylineRequest) :
    XNode.countNamed "Placemark" (KMZService.generateKml r) = 0 := by
  simp [KMZService.generateKml, countNamed_elem, countNamed_text,
    countNamedList_cons, countNamedList_nil, countPlacemark_missionConfig]

theorem countPlacemark_generateWpml (r : FlyToWaylineRequest) :
    XNode.countNamed "Placemark" (KMZService.generateWpml r)
      = r.waypoints.length := by
  simp [KMZService.generateWpml, countNamed_elem, countNamed_text,
    countNamedList_cons, countNamedList_nil, countNamedList_append,
    countPlacemark_missionConfig, countPlacemark_map]

/-! ## Claim theorems -/

/-- C1, counterexample: the exporter does not fail on a mission with an empty
waypoint list; `GenerateKmzAsync` on the empty request succeeds, the
substituted waypoint list is the three hard-coded defaults, and the
`waylines.wpml` document of the produced KMZ contains 3 fabricated
placemarks instead of zero. -/
theorem export_empty_mission_counterexample :
    (KMZService.generateKmz emptyRequest).map Prod.fst
        = ["template.kml", "waylines.wpml"] ∧
    XNode.countNamed "Placemark"
        (KMZService.generateWpml (KMZService.setDefaultValues emptyRequest)) = 3 ∧
    (KMZService.setDefaultValues emptyRequest).waypoints
        = KMZService.getDefaultWaypoints := by
  refine ⟨rfl, ?_, rfl⟩
  simp [countPlacemark_generateWpml, KMZService.setDefaultValues, emptyRequest,
    KMZService.getDefaultWaypoints]

/-- C1, amended: for every mission whose waypoint list is empty,
`GenerateKmzAsync` never fails; `SetDefaultValues` silently substitutes the
three hard-coded default waypoints, and the exporter returns a KMZ with the
two usual entries whose `waylines.wpml` contains exactly those 3 fabricated
placemarks. -/
theorem export_empty_mission_substitutes_defaults (req : FlyToWaylineRequest)
    (h : req.waypoints = []) :
    (KMZService.generateKmz req).map Prod.fst
        = ["template.kml", "waylines.wpml"] ∧
    XNode.countNamed "Placemark"
        (KMZService.generateWpml (KMZService.setDefaultValues req)) = 3 ∧
    (KMZService.setDefaultValues req).waypoints
        = KMZService.getDefaultWaypoints := by
  refine ⟨rfl, ?_, ?_⟩
  · simp [countPlacemark_generateWpml, KMZService.setDefaultValues, h,
      KMZService.getDefaultWaypoints]
  · simp [KMZService.setDefaultValues, h]

/-- C1, witness: the amended theorem evaluated at the concrete empty
request. -/
theorem export_empty_mission_substitutes_defaults_witness :
    (KMZService.generateKmz emptyRequest).map Prod.fst
        = ["template.kml", "waylines.wpml"] ∧
    XNode.countNamed "Placemark"
        (KMZService.generateWpml (KMZService.setDefaultValues emptyRequest)) = 3 ∧
    (KMZService.setDefaultValues emptyRequest).waypoints
        = KMZService.getDefaultWaypoints :=
  export_empty_mission_substitutes_defaults emptyRequest rfl

set_option maxRecDepth 100000 in
/-- C2, counterexample: for the circle centred at (0,0) the handler does
substitute a fixed default city: the first returned waypoint is the
projection from London (51.5074, -0.1278), not the projection from the
supplied (0,0) centre (witnessed under the `trigId` interpretation of the
trigonometric primitives). -/
theorem circle_zero_center_counterexample :
    ∃ l, CircleShapeService.generateWaypoints trigId zeroCenterCircle sampleParams
        = .ok l ∧
      l.length = 62 ∧
      ∀ h0 : 0 < l.length,
        ((l.get ⟨0, h0⟩).lat, (l.get ⟨0, h0⟩).lng)
            = sphericalProject trigId (515074 / 10000) (-1278 / 10000) 90 100 ∧
        ((l.get ⟨0, h0⟩).lat, (l.get ⟨0, h0⟩).lng)
            ≠ sphericalProject trigId 0 0 90 100 := by
  refine ⟨_, circle_generateWaypoints_ok trigId zeroCenterCircle sampleParams
    { lat := 0, lng := 0, radius := 100 } [] rfl (by norm_num [zeroCenterCircle]),
    ?_, ?_⟩
  · simp only [List.length_map, List.length_range]
    with_unfolding_all decide
  · intro h0
    simp only [List.get_eq_getElem, List.getElem_map, List.getElem_range]
    rw [circleWaypoint_latlng]
    have hcen : CircleShapeService.effectiveCenter
        { lat := 0, lng := 0, radius := 100 }
        = { lat := 515074 / 10000, lng := -1278 / 10000, radius := 100 } := by
      unfold CircleShapeService.effectiveCenter CircleShapeService.londonFallback
      norm_num
    have hb : ∀ n : ℕ, fmod (((0 : ℕ) : ℚ) * (360 / (n : ℚ)) + 90) 360 = 90 := by
      intro n
      simp only [Nat.cast_zero, zero_mul, zero_add, fmod]
      norm_num
    rw [hcen, hb]
    refine ⟨rfl, ?_⟩
    simp only [sphericalProject, trigId, zeroCenterCircle]
    intro hcontra
    rw [Prod.mk.injEq] at hcontra
    norm_num [mathPi] at hcontra

/-- C2, amended: the circle handler projects every waypoint from the supplied
centre unless both centre components are below 1e-9 in absolute value, in
which case it silently substitutes London (51.5074, -0.1278) as the
projection centre. -/
theorem circle_center_substitution (T : TrigOps) (shape : ShapeData)
    (p : WaypointParameters) (center : Coordinate) (tl : List Coordinate)
    (h : shape.coordinates = center :: tl) (hr : 0 < shape.radius) :
    ∃ l, CircleShapeService.generateWaypoints T shape p = .ok l ∧
      ∀ i (hi : i < l.length),
        ((l.get ⟨i, hi⟩).lat, (l.get ⟨i, hi⟩).lng)
          = sphericalProject T
              (if |center.lat| < 1 / 1000000000 ∧ |center.lng| < 1 / 1000000000
                then 515074 / 10000 else center.lat)
              (if |center.lat| < 1 / 1000000000 ∧ |center.lng| < 1 / 1000000000
                then -1278 / 10000 else center.lng)
              (fmod ((i : ℚ) * (360 / (l.length : ℚ)) + 90) 360)
              shape.radius := by
  refine ⟨_, circle_generateWaypoints_ok T shape p center tl h hr, ?_⟩
  intro i hi
  simp only [List.get_eq_getElem, List.getElem_map, List.getElem_range,
    List.length_map, List.length_range]
  rw [circleWaypoint_latlng]
  unfold CircleShapeService.effectiveCenter CircleShapeService.londonFallback
  by_cases hc : |center.lat| < 1 / 1000000000 ∧ |center.lng| < 1 / 1000000000
  · simp only [if_pos hc]
  · simp only [if_neg hc]

/-- C2, witness: the amended theorem evaluated at the concrete (0,0)-centred
circle under the `trigId` interpretation. -/
theorem circle_center_substitution_witness :
    ∃ l, CircleShapeService.generateWaypoints trigId zeroCenterCircle sampleParams
        = .ok l ∧
      ∀ i (hi : i < l.length),
        ((l.get ⟨i, hi⟩).lat, (l.get ⟨i, hi⟩).lng)
          = sphericalProject trigId
              (if |(0 : ℚ)| < 1 / 1000000000 ∧ |(0 : ℚ)| < 1 / 1000000000
                then 515074 / 10000 else 0)
              (if |(0 : ℚ)| < 1 / 1000000000 ∧ |(0 : ℚ)| < 1 / 1000000000
                then -1278 / 10000 else 0)
              (fmod ((i : ℚ) * (360 / (l.length : ℚ)) + 90) 360)
              zeroCenterCircle.radius :=
  circle_center_substitution trigId zeroCenterCircle sampleParams
    { lat := 0, lng := 0, radius := 100 } [] rfl (by norm_num [zeroCenterCircle])

/-- C3, counterexample: the heading the circle handler stores is not the
tangential bearing of the spec: at sample 0 the tangential bearing is 90 but
the code sets `Heading = 270`, the bearing toward the centre. -/
theorem circle_heading_counterexample :
    ∃ l, CircleShapeService.generateWaypoints trigZero sampleCircle sampleParams
        = .ok l ∧
      l.length = 62 ∧
      tangentialBearing 62 0 = 90 ∧
      ∀ h0 : 0 < l.length,
        (l.get ⟨0, h0⟩).heading = 270 ∧
        (l.get ⟨0, h0⟩).heading ≠ tangentialBearing 62 0 := by
  refine ⟨_, circle_generateWaypoints_ok trigZero sampleCircle sampleParams
    { lat := 51, lng := 7, radius := 100 } [] rfl (by norm_num [sampleCircle]),
    ?_, ?_, ?_⟩
  · simp only [List.length_map, List.length_range]
    with_unfolding_all decide
  · with_unfolding_all decide
  · intro h0
    simp only [List.get_eq_getElem, List.getElem_map, List.getElem_range]
    constructor
    · show fmod (fmod ((0 : ℕ) * _ + 90) 360 + 180) 360 = 270
      with_unfolding_all decide
    · show fmod (fmod ((0 : ℕ) * _ + 90) 360 + 180) 360 ≠ _
      with_unfolding_all decide

/-- C3, amended: every waypoint returned by the circle handler has
`Heading = (tangential bearing + 180) mod 360`, i.e. `(angle + 270) mod 360`
-- the bearing toward the centre, not the outward tangential bearing. -/
theorem circle_heading_toward_center (T : TrigOps) (shape : ShapeData)
    (p : WaypointParameters) (center : Coordinate) (tl : List Coordinate)
    (h : shape.coordinates = center :: tl) (hr : 0 < shape.radius) :
    ∃ l, CircleShapeService.generateWaypoints T shape p = .ok l ∧
      ∀ i (hi : i < l.length),
        (l.get ⟨i, hi⟩).heading
          = fmod (tangentialBearing l.length i + 180) 360 := by
  refine ⟨_, circle_generateWaypoints_ok T shape p center tl h hr, ?_⟩
  intro i hi
  simp only [List.get_eq_getElem, List.getElem_map, List.getElem_range,
    List.length_map, List.length_range]
  rfl

/-- C3, witness: the amended theorem evaluated at the sample circle under the
zero trigonometric interpretation. -/
theorem circle_heading_toward_center_witness :
    ∃ l, CircleShapeService.generateWaypoints trigZero sampleCircle sampleParams
        = .ok l ∧
      ∀ i (hi : i < l.length),
        (l.get ⟨i, hi⟩).heading
          = fmod (tangentialBearing l.length i + 180) 360 :=
  circle_heading_toward_center trigZero sampleCircle sampleParams
    { lat := 51, lng := 7, radius := 100 } [] rfl (by norm_num [sampleCircle])

/-- C4, counterexample: a circle whose coordinate list is empty does not fail
with an error: the handler succeeds and returns the empty waypoint list. -/
theorem circle_empty_coordinates_counterexample :
    CircleShapeService.generateWaypoints trigZero emptyCoordCircle sampleParams
      = .ok [] := rfl

/-- C4, amended: the circle handler fails with an error exactly when the
coordinate list is non-empty and `Radius <= 0`; a circle with an empty
coordinate list succeeds with an empty result instead of erroring. -/
theorem circle_error_iff (T : TrigOps) (shape : ShapeData)
    (p : WaypointParameters) :
    (∃ e, CircleShapeService.generateWaypoints T shape p = .error e)
      ↔ shape.coordinates ≠ [] ∧ shape.radius ≤ 0 := by
  unfold CircleShapeService.generateWaypoints
  rcases hc : shape.coordinates with _ | ⟨c, tl⟩
  · simp
  · by_cases hrad : shape.radius ≤ 0
    · simp [hrad]
    · simp [hrad]

/-- C5: for a circle with positive radius, speed and photo interval, the
handler returns exactly `max 24 (floor (circumference / (Speed *
PhotoInterval)))` waypoints, where the circumference is `2 * pi * Radius`,
and never fewer than 24. -/
theorem circle_waypoint_count (T : TrigOps) (shape : ShapeData)
    (p : WaypointParameters) (center : Coordinate) (tl : List Coordinate)
    (h : shape.coordinates = center :: tl) (hr : 0 < shape.radius)
    (hs : 0 < p.speed) (hp : 0 < p.photoInterval) :
    ∃ l, CircleShapeService.generateWaypoints T shape p = .ok l ∧
      l.length =
        (max 24 ⌊2 * mathPi * shape.radius / (p.speed * p.photoInterval)⌋).toNat ∧
      24 ≤ l.length := by
  exact ⟨_, circle_generateWaypoints_ok T shape p center tl h hr, by simp, by simp⟩

/-- C5, witness: the count theorem evaluated at the sample 100 m circle with
speed 5 m/s and photo interval 2 s. -/
theorem circle_waypoint_count_witness :
    (0 < sampleCircle.radius ∧ 0 < sampleParams.speed
        ∧ 0 < sampleParams.photoInterval) ∧
    ∃ l, CircleShapeService.generateWaypoints trigZero sampleCircle sampleParams
        = .ok l ∧
      l.length = (max 24 ⌊2 * mathPi * sampleCircle.radius /
        (sampleParams.speed * sampleParams.photoInterval)⌋).toNat ∧
      24 ≤ l.length :=
  ⟨⟨by norm_num [sampleCircle], by norm_num [sampleParams],
      by norm_num [sampleParams]⟩,
    circle_waypoint_count trigZero sampleCircle sampleParams
      { lat := 51, lng := 7, radius := 100 } [] rfl
      (by norm_num [sampleCircle]) (by norm_num [sampleParams])
      (by norm_num [sampleParams])⟩

/-- C6: every successful orchestration is the in-input-order concatenation of
the per-shape handler results, renumbered so that the k-th waypoint has
`Index = StartingIndex + k` (indices strictly increasing by 1 from
`params.StartingIndex`). -/
theorem orchestrator_index_contiguity (T : TrigOps) (shapes : List ShapeData)
    (p : WaypointParameters) (l : List Waypoint)
    (h : WaypointService.generateWaypoints T shapes p = .ok l) :
    (∃ results, shapes.mapM (fun s => WaypointService.dispatch T s p)
          = .ok results ∧
        l = WaypointService.renumber p.startingIndex results.flatten) ∧
    l.map Waypoint.index
      = (List.range l.length).map (fun k : ℕ => p.startingIndex + (k : ℤ)) := by
  unfold WaypointService.generateWaypoints at h
  rcases hm : shapes.mapM (fun s => WaypointService.dispatch T s p) with e | results
  · rw [hm] at h
    cases h
  · rw [hm] at h
    injection h with h
    subst h
    refine ⟨⟨results, rfl, rfl⟩, ?_⟩
    rw [renumber_map_index, renumber_length]

/-- C6, witness: the contiguity theorem evaluated at a single sample circle
shape under the zero trigonometric interpretation. -/
theorem orchestrator_index_contiguity_witness :
    (∃ results,
        ([sampleCircle].mapM (fun s => WaypointService.dispatch trigZero s sampleParams))
          = .ok results ∧
        orchestratedSample
          = WaypointService.renumber sampleParams.startingIndex results.flatten) ∧
    orchestratedSample.map Waypoint.index
      = (List.range orchestratedSample.length).map
          (fun k : ℕ => sampleParams.startingIndex + (k : ℤ)) :=
  orchestrator_index_contiguity trigZero [sampleCircle] sampleParams
    orchestratedSample (by with_unfolding_all rfl)

/-- C7: for a mission with a non-empty waypoint list, the KMZ consists of
exactly the two entries `template.kml` and `waylines.wpml` in that order,
the `waylines.wpml` document contains exactly one `Placemark` per input
waypoint, and `template.kml` contains none. -/
theorem export_kmz_structure (req : FlyToWaylineRequest)
    (h : req.waypoints ≠ []) :
    KMZService.generateKmz req
        = [("template.kml", KMZService.generateKml (KMZService.setDefaultValues req)),
           ("waylines.wpml", KMZService.generateWpml (KMZService.setDefaultValues req))] ∧
    XNode.countNamed "Placemark"
        (KMZService.generateWpml (KMZService.setDefaultValues req))
      = req.waypoints.length ∧
    XNode.countNamed "Placemark"
        (KMZService.generateKml (KMZService.setDefaultValues req)) = 0 := by
  refine ⟨rfl, ?_, countPlacemark_generateKml _⟩
  simp [countPlacemark_generateWpml, KMZService.setDefaultValues, h]

/-- C7, witness: the structure theorem evaluated at a 3-waypoint mission:
the zip has exactly the two named entries and `waylines.wpml` has exactly 3
placemarks. -/
theorem export_kmz_structure_witness :
    KMZService.generateKmz threeWaypointRequest
        = [("template.kml",
            KMZService.generateKml (KMZService.setDefaultValues threeWaypointRequest)),
           ("waylines.wpml",
            KMZService.generateWpml (KMZService.setDefaultValues threeWaypointRequest))] ∧
    XNode.countNamed "Placemark"
        (KMZService.generateWpml (KMZService.setDefaultValues threeWaypointRequest))
      = 3 ∧
    XNode.countNamed "Placemark"
        (KMZService.generateKml (KMZService.setDefaultValues threeWaypointRequest))
      = 0 := by
  have h := export_kmz_structure threeWaypointRequest
    (by simp [threeWaypointRequest])
  simpa [threeWaypointRequest] using h

/-- C8: the actionGroup blocks of a placemark carry exactly the vendor
actuator function the waypoint's `Action` maps to (`takePhoto`, `startRecord`
and `stopRecord` map to themselves), and a `noAction` waypoint gets no
actionGroup block at all. -/
theorem placemark_action_mapping (wp : WaypointGen)
    (h : wp.action = "takePhoto" ∨ wp.action = "startRecord"
      ∨ wp.action = "stopRecord" ∨ wp.action = "noAction") :
    placemarkActionGroupFuncs (KMZService.createPlacemark wp)
        = specActuatorOf wp.action ∧
    ((KMZService.createPlacemark wp).childrenNamed "actionGroup").length
        = (specActuatorOf wp.action).length := by
  rcases wp with ⟨idx, lat, lng, eh, ws, hm, hpm, tm, td, act, ha, pp, he, us⟩
  rcases h with h | h | h | h <;> subst h <;> exact ⟨rfl, rfl⟩

/-- C8, witness: the mapping theorem evaluated at a `startRecord` waypoint. -/
theorem placemark_action_mapping_witness :
    placemarkActionGroupFuncs
        (KMZService.createPlacemark { action := "startRecord" })
        = specActuatorOf "startRecord" ∧
    ((KMZService.createPlacemark
        { action := "startRecord" }).childrenNamed "actionGroup").length
        = (specActuatorOf "startRecord").length :=
  placemark_action_mapping { action := "startRecord" } (.inr (.inl rfl))

/-- C9: the `Point/coordinates` text of every exported placemark is the
longitude followed by the latitude, comma separated, each in fixed-point
notation with exactly 14 (hence at least 6) decimal digits. -/
theorem wpml_coordinates_format (wp : WaypointGen) :
    placemarkCoordinatesText (KMZService.createPlacemark wp)
        = some (formatFixed 14 wp.longitude ++ ","
            ++ formatFixed 14 wp.latitude) ∧
    ∀ q : ℚ,
      formatFixed 14 q = formatFixedIntPart 14 q ++ "." ++ fracString 14 q ∧
      (fracString 14 q).length = 14 ∧
      6 ≤ (fracString 14 q).length := by
  refine ⟨rfl, ?_⟩
  intro q
  have hlen : (fracString 14 q).length = 14 := by
    simp [fracString, fracDigits, String.length]
  exact ⟨rfl, hlen, by omega⟩

/-- C10: for bounds type "circle", the factory keeps the first coordinate's
radius when it is positive and silently substitutes 100 m for a non-positive
one, never failing and never propagating the non-positive radius. -/
theorem factory_circle_radius_default (hd : Coordinate) (tl : List Coordinate)
    (id : String) :
    ShapeDataFactory.createFromBoundsType "circle" (hd :: tl) id =
      .ok { id := id
            type := ShapeTypes.circle
            coordinates := [hd]
            radius := if hd.radius > 0 then hd.radius else 100 } := rfl

end WaypointMapping
